import Mathlib

/-!
Verification of the FABRIC testbed information-model property-graph layer.

This file shallowly embeds the two modules under scrutiny:

* `fim/graph/neo4j_property_graph.py` — the remote-database (Neo4j) backend:
  a store of labelled nodes with string property maps, plus the
  delete / update / link-lookup / JSON-validation / bulk-import operations.
  The Cypher queries of the source are translated into direct computations
  over the store; the bulk loader and the JSON parser are external
  collaborators and enter as boolean oracles.

* `fim/graph/slices/abc_asm.py` — the slice-model (ASM) layer: cascading
  deletion of switch fabrics and connection points over the abstract
  property-graph contract.  The contract operations `get_first_neighbor`
  and `delete_node` that the ASM code calls are not part of the sources
  available here, so they are modelled from the spec (marked as such).
-/

set_option autoImplicit false
set_option linter.unusedVariables false

deriving instance DecidableEq for Except

/-- Exceptions of the property-graph layer.  `importErr` stands for
`PropertyGraphImportException`, `queryErr` for `PropertyGraphQueryException`
(each records the offending node id when the source passes one), and
`cypherErr` for an error raised by the Neo4j server itself (e.g. a statement
referencing an undefined variable). -/
inductive PGErr where
  | importErr (nodeId : Option String) (msg : String)
  | queryErr (nodeId : Option String) (msg : String)
  | cypherErr (msg : String)
deriving DecidableEq, Repr

namespace Neo4j

/-- A Neo4j node: an internal identity (`nid`, Neo4j's own node id), a set of
labels, and a string-valued property map. -/
structure N4jNode where
  nid : Nat
  labels : List String
  props : List (String × String)
deriving DecidableEq, Repr

/-- A Neo4j relationship: endpoint node identities, a relationship type, and
a property map. -/
structure N4jRel where
  src : Nat
  dst : Nat
  kind : String
  props : List (String × String)
deriving DecidableEq, Repr

/-- The physical Neo4j store: all nodes and relationships, across all graphs
(graphs coexist, distinguished by the `GraphID` node property). -/
structure N4jStore where
  nodes : List N4jNode
  rels : List N4jRel
deriving DecidableEq, Repr

/-- `SET n += ( key : value )` on a property map: overwrite the key if
present, append it otherwise. -/
def setProp (props : List (String × String)) (k v : String) : List (String × String) :=
  if (props.lookup k).isSome then
    props.map (fun kv => if kv.1 == k then (kv.1, v) else kv)
  else
    props ++ [(k, v)]

/-- Whether a node matches a Cypher node pattern demanding the given labels
and property equalities. -/
def nodeMatches (n : N4jNode) (needLabels : List String)
    (propEqs : List (String × String)) : Bool :=
  needLabels.all (fun l => n.labels.contains l) &&
    propEqs.all (fun kv => n.props.lookup kv.1 == some kv.2)

/-- Resolve an internal node identity. -/
def findNode (st : N4jStore) (i : Nat) : Option N4jNode :=
  st.nodes.find? (fun n => n.nid == i)

/-- `get_node_properties`: query
`MATCH (n:GraphNode (GraphID: $graphId, NodeID: $nodeId)) RETURN properties(n)`;
raises `PropertyGraphQueryException` when no row comes back. -/
def get_node_properties (st : N4jStore) (graph_id node_id : String) :
    Except PGErr (List (String × String)) :=
  match st.nodes.find?
      (fun n => nodeMatches n ["GraphNode"] [("GraphID", graph_id), ("NodeID", node_id)]) with
  | some n => .ok n.props
  | none => .error (.queryErr (some node_id) "Unable to find node")

/-- `list_all_node_ids`: query
`MATCH (n (GraphID: $graphId)) RETURN collect(n.NodeID)`.  Note: no
`GraphNode` label restriction, and Cypher's `collect` drops nulls, so nodes
lacking a `NodeID` property are silently skipped.  The single `collect` row
always exists, so this operation never raises. -/
def list_all_node_ids (st : N4jStore) (graph_id : String) : List String :=
  (st.nodes.filter (fun n => n.props.lookup "GraphID" == some graph_id)).filterMap
    (fun n => n.props.lookup "NodeID")

/-- A node the `delete_graph` query matches:
`match (n:GraphNode (GraphID: $graphId)) detach delete n` — the node must
carry both the `GraphNode` marker label and the matching `GraphID` property. -/
def deleteGraphMatches (graph_id : String) (n : N4jNode) : Bool :=
  n.labels.contains "GraphNode" && (n.props.lookup "GraphID" == some graph_id)

/-- `delete_graph`: detach-delete every node matching
`(n:GraphNode (GraphID: $graphId))`, removing the matched nodes and the
relationships touching them. -/
def delete_graph (st : N4jStore) (graph_id : String) : N4jStore :=
  ⟨st.nodes.filter (fun n => !deleteGraphMatches graph_id n),
   st.rels.filter (fun r =>
     !(st.nodes.any (fun n =>
        deleteGraphMatches graph_id n && (n.nid == r.src || n.nid == r.dst))))⟩

/-- `update_node_property`: query
`MATCH (s:GraphNode (GraphID: $graphId, NodeID: $nodeId))
 SET s += ( prop_name : $propVal ) RETURN properties(s)`.
Raises `PropertyGraphQueryException` when no row comes back; otherwise every
matched node's property map gets the key overwritten.  The source performs
no check whatsoever on `prop_name` (in particular none for `Class`). -/
def update_node_property (st : N4jStore) (graph_id node_id prop_name prop_val : String) :
    Except PGErr N4jStore :=
  if st.nodes.any
      (fun n => nodeMatches n ["GraphNode"] [("GraphID", graph_id), ("NodeID", node_id)]) then
    .ok ⟨st.nodes.map (fun n =>
          if nodeMatches n ["GraphNode"] [("GraphID", graph_id), ("NodeID", node_id)] then
            ⟨n.nid, n.labels, setProp n.props prop_name prop_val⟩
          else n),
        st.rels⟩
  else
    .error (.queryErr (some node_id) "Unable to set property")

/-- `update_node_properties`: the source concatenates all key/value pairs
into one `SET s += ( k1 : "v1", k2 : "v2", ... )` clause over the same
match; every supplied key is written in order.  No key is rejected. -/
def update_node_properties (st : N4jStore) (graph_id node_id : String)
    (props : List (String × String)) : Except PGErr N4jStore :=
  if st.nodes.any
      (fun n => nodeMatches n ["GraphNode"] [("GraphID", graph_id), ("NodeID", node_id)]) then
    .ok ⟨st.nodes.map (fun n =>
          if nodeMatches n ["GraphNode"] [("GraphID", graph_id), ("NodeID", node_id)] then
            ⟨n.nid, n.labels, props.foldl (fun ps kv => setProp ps kv.1 kv.2) n.props⟩
          else n),
        st.rels⟩
  else
    .error (.queryErr (some node_id) "Unable to set properties")

/-- Whether some relationship of the store has the given type and endpoint
patterns (in either direction, as the undirected Cypher pattern
`(a) -[r:kind]- (b)` does). -/
def relEndpointsMatch (st : N4jStore) (r : N4jRel) (pa pb : N4jNode → Bool) : Bool :=
  match findNode st r.src, findNode st r.dst with
  | some x, some y => (pa x && pb y) || (pa y && pb x)
  | _, _ => false

/-- `get_link_properties`: query (verbatim from the source, note the
misspelled property key `GraphId` — every node written by the import path
carries `GraphID` instead):
`MATCH (a:GraphNode (GraphId:$graphId, NodeID:$nodeA)) -[r:kind]-
 (b:GraphNode (GraphId:$graphId, NodeID:$nodeB)) RETURN properties(r)`;
raises `PropertyGraphQueryException` when no row comes back. -/
def get_link_properties (st : N4jStore) (graph_id node_a node_b kind : String) :
    Except PGErr (List (String × String)) :=
  match st.rels.find? (fun r => r.kind == kind &&
      relEndpointsMatch st r
        (fun n => nodeMatches n ["GraphNode"] [("GraphId", graph_id), ("NodeID", node_a)])
        (fun n => nodeMatches n ["GraphNode"] [("GraphId", graph_id), ("NodeID", node_b)])) with
  | some r => .ok r.props
  | none => .error (.queryErr (some node_a) "Unable to find link")

/-- The behaviour the spec words describe for `get_link_properties`: the
same lookup but scoping endpoints by the property key `GraphID` that
imported nodes actually carry.  Used only to witness that the link the
source's query misses does exist. -/
def get_link_properties_spec (st : N4jStore) (graph_id node_a node_b kind : String) :
    Except PGErr (List (String × String)) :=
  match st.rels.find? (fun r => r.kind == kind &&
      relEndpointsMatch st r
        (fun n => nodeMatches n ["GraphNode"] [("GraphID", graph_id), ("NodeID", node_a)])
        (fun n => nodeMatches n ["GraphNode"] [("GraphID", graph_id), ("NodeID", node_b)])) with
  | some r => .ok r.props
  | none => .error (.queryErr (some node_a) "Unable to find link")

/-- The Cypher variables bound by the MATCH clause of the
`update_link_property` query: `(a:GraphNode ...) -[r:kind]- (b:GraphNode ...)`. -/
def updateLinkBoundVars : List String := ["a", "r", "b"]

/-- The variable the SET clause of the `update_link_property` query writes
to: the source reads `SET s += ( prop_name : $propVal )` — `s`, which the
MATCH clause never binds. -/
def updateLinkSetTargetVar : String := "s"

/-- `update_link_property`: the source's statement
`MATCH (a:GraphNode (GraphID: $graphId, NodeID: $nodeA)) -[r:kind]-
 (b:GraphNode (GraphID: $graphId, NodeID:$nodeB))
 SET s += ( prop_name : $propVal ) RETURN properties(r)`
references the variable `s` that its MATCH clause does not bind
(`updateLinkSetTargetVar` is not among `updateLinkBoundVars`), so Neo4j
rejects the statement before executing it; the call always raises and the
store is never modified. -/
def update_link_property (st : N4jStore) (graph_id node_a node_b kind prop_name prop_val : String) :
    Except PGErr N4jStore :=
  .error (.cypherErr "Variable s not defined")

/-- The four JSON-valued node properties, in the order the source lists
them (`JSON_PROPERTY_NAMES`). -/
def JSON_PROPERTY_NAMES : List String :=
  ["Labels", "Capacities", "LabelDelegations", "CapacityDelegations"]

/-- The message of the exception raised for an unparseable JSON property:
"Unable to parse JSON property (prop) with value (prop_val)". -/
def parseMsg (prop prop_val : String) : String :=
  "Unable to parse JSON property " ++ prop ++ " with value " ++ prop_val

/-- `_validate_json_property` (with the caller-supplied default
`strict = False`): fetch the node's properties; a missing property yields
`none` (or raises if strict); a value that is the literal string "None" is
treated as absent; otherwise the value is handed to the external JSON
parser (the oracle `jsonOk`) and returned when it does not parse.
`none` signals a fine property, `some v` an unparseable value `v`. -/
def validate_json_property (jsonOk : String → Bool) (st : N4jStore)
    (graph_id node_id prop_name : String) (strict : Bool) :
    Except PGErr (Option String) :=
  match get_node_properties st graph_id node_id with
  | .error e => .error e
  | .ok props =>
    match props.lookup prop_name with
    | none =>
      if strict then
        .error (.importErr (some node_id)
          ("Unable to find property " ++ prop_name ++ " on a node"))
      else .ok none
    | some v =>
      if v != "None" then
        (if jsonOk v then .ok none else .ok (some v))
      else .ok none

/-- The inner loop of `_validate_all_json_properties` over one node's
expected JSON properties: the first bad value turns into a
`PropertyGraphImportException` naming the node and the property. -/
def validateNodeProps (jsonOk : String → Bool) (st : N4jStore)
    (graph_id node_id : String) : List String → Except PGErr Unit
  | [] => .ok ()
  | p :: ps =>
    match validate_json_property jsonOk st graph_id node_id p false with
    | .error e => .error e
    | .ok (some v) => .error (.importErr (some node_id) (parseMsg p v))
    | .ok none => validateNodeProps jsonOk st graph_id node_id ps

/-- The outer loop of `_validate_all_json_properties` over the listed
nodes. -/
def validateNodes (jsonOk : String → Bool) (st : N4jStore)
    (graph_id : String) : List String → Except PGErr Unit
  | [] => .ok ()
  | n :: ns =>
    match validateNodeProps jsonOk st graph_id n JSON_PROPERTY_NAMES with
    | .error e => .error e
    | .ok () => validateNodes jsonOk st graph_id ns

/-- `_validate_all_json_properties`: list the graph's nodes, raise
`PropertyGraphQueryException` "Unable to list nodes of graph" when the list
is empty, and otherwise check the four JSON properties of every node. -/
def validate_all_json_properties (jsonOk : String → Bool) (st : N4jStore)
    (graph_id : String) : Except PGErr Unit :=
  let nodes := list_all_node_ids st graph_id
  if nodes.length = 0 then
    .error (.queryErr none "Unable to list nodes of graph")
  else validateNodes jsonOk st graph_id nodes

/-- `_validate_graph`: evaluate the configured boolean rules in order (each
rule's outcome on this graph and its message arrive as a pair, the rule file
and the Cypher evaluation being external); the first rule evaluating to
false raises `PropertyGraphImportException` with that rule's message. -/
def validate_graph_rules (graph_id : String) :
    List (Bool × String) → Except PGErr Unit
  | [] => .ok ()
  | (v, msg) :: rs =>
    if v = false then .error (.importErr none msg)
    else validate_graph_rules graph_id rs

/-- `validate_graph`: apply the rule checks, then the JSON property checks. -/
def validate_graph (ruleResults : List (Bool × String)) (jsonOk : String → Bool)
    (st : N4jStore) (graph_id : String) : Except PGErr Unit :=
  match validate_graph_rules graph_id ruleResults with
  | .error e => .error e
  | .ok () => validate_all_json_properties jsonOk st graph_id

/-- A property is fine for the JSON check when it is absent, the literal
string "None", or accepted by the JSON parser. -/
def propFine (jsonOk : String → Bool) (props : List (String × String)) (p : String) : Bool :=
  match props.lookup p with
  | none => true
  | some v => v == "None" || jsonOk v

/-- A listed node is fine when it resolves under the graph-scoped lookup and
all four JSON properties are fine. -/
def nodeFine (jsonOk : String → Bool) (st : N4jStore) (graph_id node_id : String) : Bool :=
  match get_node_properties st graph_id node_id with
  | .error _ => false
  | .ok props => JSON_PROPERTY_NAMES.all (propFine jsonOk props)

/-- Observable events of the import paths, in program order: the bulk-load
attempt (`_import_graph`, numbered), the scoped `delete_graph` call and the
`time.sleep(1.0)` backoff of the retry loop, staging-file management
(`write` / `shutil.copyfile` / `os.unlink`), and the terminating raise or
return. -/
inductive Ev where
  | importAttempt (i : Nat)
  | deleteCall (graph_id : String)
  | sleepBackoff
  | writeStagedFile
  | copyStagedFile
  | loaderCall
  | unlinkStagedFile
  | raiseImportFailed
  | returnAssignedId (graph_id : String)
  | returnNone
deriving DecidableEq, Repr

/-- `APOC_RETRY_COUNT` from the source. -/
def APOC_RETRY_COUNT : Nat := 10

/-- The `while retry > 0` loop of `import_graph_from_string`, parameterised
by the oracle `ok` telling whether the `i`-th `_import_graph` call succeeds.
On success the source sets `retry = -1` and the loop exits (second component
`true`); on failure it decrements `retry`, calls
`delete_graph(graph_id=assigned_id)` and sleeps.  `([], false)` is the state
in which the loop exited with `retry == 0` (budget exhausted). -/
def importRetryLoop (ok : Nat → Bool) (assigned_id : String) :
    Nat → Nat → List Ev × Bool
  | 0, _ => ([], false)
  | r + 1, i =>
    if ok i then ([Ev.importAttempt i], true)
    else
      let rest := importRetryLoop ok assigned_id r (i + 1)
      (Ev.importAttempt i :: Ev.deleteCall assigned_id :: Ev.sleepBackoff :: rest.1, rest.2)

/-- `import_graph_from_string` from the point where `_prep_graph` staged the
file and fixed the assigned id: run the retry loop, unlink the staged file,
and only then either raise the terminal import error (`retry == 0`) or
return the assigned graph id.  Yields the event trace and the outcome. -/
def import_graph_from_string (ok : Nat → Bool) (assigned_id : String) :
    List Ev × Except PGErr String :=
  let r := importRetryLoop ok assigned_id APOC_RETRY_COUNT 0
  if r.2 then
    (r.1 ++ [Ev.unlinkStagedFile, Ev.returnAssignedId assigned_id], .ok assigned_id)
  else
    (r.1 ++ [Ev.unlinkStagedFile, Ev.raiseImportFailed],
     .error (.importErr none "Unable to load graph after multiple attempts"))

/-- `import_graph_from_string_direct`: write the staged file, invoke the
bulk loader once (outcome `loaderOk`); on failure the wrapped import
exception is raised before the `os.unlink` line is ever reached; on success
the staged file is unlinked and the function falls off its end, returning
Python's `None` despite the declared `str` return type. -/
def import_graph_from_string_direct (loaderOk : Bool) :
    List Ev × Except PGErr (Option String) :=
  if loaderOk then
    ([Ev.writeStagedFile, Ev.loaderCall, Ev.unlinkStagedFile, Ev.returnNone], .ok none)
  else
    ([Ev.writeStagedFile, Ev.loaderCall, Ev.raiseImportFailed],
     .error (.importErr none "Neo4j APOC import error"))

/-- `import_graph_from_file_direct`: identical control flow to the string
variant except the staged file is produced by `shutil.copyfile`. -/
def import_graph_from_file_direct (loaderOk : Bool) :
    List Ev × Except PGErr (Option String) :=
  if loaderOk then
    ([Ev.copyStagedFile, Ev.loaderCall, Ev.unlinkStagedFile, Ev.returnNone], .ok none)
  else
    ([Ev.copyStagedFile, Ev.loaderCall, Ev.raiseImportFailed],
     .error (.importErr none "Neo4j APOC import error"))

/-- The trace produced by `n` consecutive failed attempts starting at
attempt index `i`: each failure is followed by the scoped delete and the
backoff sleep. -/
def failTriples (assigned_id : String) : Nat → Nat → List Ev
  | 0, _ => []
  | n + 1, i =>
    Ev.importAttempt i :: Ev.deleteCall assigned_id :: Ev.sleepBackoff ::
      failTriples assigned_id n (i + 1)

end Neo4j

namespace ASM

/-- The abstract property graph the ASM (slice-model) layer runs over: node
ids with their structural labels, and typed edges `(a, rel, b)`.  The ASM
code is backend-polymorphic; this is the store-contract view of one graph. -/
structure PGraph where
  nodes : List (String × List String)
  edges : List (String × String × String)
deriving DecidableEq, Repr

/-- Structural class tags and relationship kinds used by the ASM layer
(`ABCPropertyGraph.CLASS_...` / `REL_...` in the source). -/
def CLASS_ConnectionPoint : String := "ConnectionPoint"

def CLASS_Link : String := "Link"

def CLASS_SwitchFabric : String := "SwitchFabric"

def REL_CONNECTS : String := "connects"

def REL_HAS : String := "has"

/-- Labels of a node of the graph (empty when absent). -/
def nodeLabels (g : PGraph) (x : String) : List String :=
  match g.nodes.find? (fun p => p.1 == x) with
  | some p => p.2
  | none => []

/-- Whether a node of the graph carries a structural label. -/
def hasLabel (g : PGraph) (x lbl : String) : Bool :=
  (nodeLabels g x).contains lbl

/-- Modelled from the spec: `get_first_neighbor(node_id, rel, node_label)`
(its implementation lives in the property-graph backends, outside the
available sources) — "all nodes reachable by exactly one edge of kind `rel`
whose label matches `node_label`; order is unspecified (set semantics);
duplicates collapse".  Edges match in either direction. -/
def get_first_neighbor (g : PGraph) (node_id rel node_label : String) : List String :=
  ((g.edges.filterMap (fun e =>
      if e.1 == node_id && e.2.1 == rel && hasLabel g e.2.2 node_label then
        some e.2.2
      else none)) ++
   (g.edges.filterMap (fun e =>
      if e.2.2 == node_id && e.2.1 == rel && hasLabel g e.1 node_label then
        some e.1
      else none))).dedup

/-- Modelled from the spec: `delete_node(node_id)` (implementation outside
the available sources) — "removes a node and all links touching it". -/
def delete_node (g : PGraph) (node_id : String) : PGraph :=
  ⟨g.nodes.filter (fun p => p.1 != node_id),
   g.edges.filter (fun e => e.1 != node_id && e.2.2 != node_id)⟩

/-- The node ids present in a graph. -/
def nodeIds (g : PGraph) : List String := g.nodes.map Prod.fst

/-- `remove_cp_and_links`: two-phase cascading delete of a connection
point.  Phase one (reads against the unmodified graph): the node itself is
slated; each parent interface (a `connects`-neighbour labelled
`ConnectionPoint`) is slated when its own `ConnectionPoint` neighbour count
is exactly 1 (the node being removed was its only child); each `Link`
neighbour of a slated interface is slated when its attached
`ConnectionPoint` count is exactly 2.  Phase two deletes the slated nodes
(the source iterates a Python set; `delete_node` is a filter here, so the
possible duplicates in the concatenated list change nothing). -/
def remove_cp_and_links (g : PGraph) (node_id : String) : PGraph :=
  let parents := get_first_neighbor g node_id REL_CONNECTS CLASS_ConnectionPoint
  let interfaces_to_delete := node_id ::
    parents.filter (fun p =>
      (get_first_neighbor g p REL_CONNECTS CLASS_ConnectionPoint).length == 1)
  let links_to_delete := interfaces_to_delete.flatMap (fun i =>
    (get_first_neighbor g i REL_CONNECTS CLASS_Link).filter (fun l =>
      (get_first_neighbor g l REL_CONNECTS CLASS_ConnectionPoint).length == 2))
  (interfaces_to_delete ++ links_to_delete).foldl delete_node g

/-- `remove_sf_with_cps_and_links`: check the node exists and is a
`SwitchFabric`, collect its `ConnectionPoint` neighbours, delete the switch
fabric itself, then cascade into each collected interface. -/
def remove_sf_with_cps_and_links (g : PGraph) (node_id : String) :
    Except PGErr PGraph :=
  match g.nodes.find? (fun p => p.1 == node_id) with
  | none => .error (.queryErr (some node_id) "Unable to find node")
  | some p =>
    if p.2.contains CLASS_SwitchFabric then
      let interfaces := get_first_neighbor g node_id REL_CONNECTS CLASS_ConnectionPoint
      .ok (interfaces.foldl remove_cp_and_links (delete_node g node_id))
    else
      .error (.queryErr (some node_id) "This node type is not SwitchFabric")

end ASM

/-- Scenario graph for the switch-fabric cascade: a `SwitchFabric` `sf` with
two `ConnectionPoint` children `c1`, `c2`; `c1` is the sole endpoint of the
`Link` `L1` whose only other attached connection point is `d1`, and
symmetrically `c2`—`L2`—`d2`. -/
def sfScenario : ASM.PGraph :=
  ⟨[("sf", ["SwitchFabric"]), ("c1", ["ConnectionPoint"]), ("c2", ["ConnectionPoint"]),
    ("d1", ["ConnectionPoint"]), ("d2", ["ConnectionPoint"]),
    ("L1", ["Link"]), ("L2", ["Link"])],
   [("sf", "connects", "c1"), ("sf", "connects", "c2"),
    ("c1", "connects", "L1"), ("d1", "connects", "L1"),
    ("c2", "connects", "L2"), ("d2", "connects", "L2")]⟩

/-- Scenario graph for the shared-link case: connection points `c1` and its
sibling `c2` (both children of the switch fabric `sf`) are attached to the
same `Link` `L`, which also attaches a third connection point `d`; the link
stays in use after `c1` goes away. -/
def siblingScenario : ASM.PGraph :=
  ⟨[("sf", ["SwitchFabric"]), ("c1", ["ConnectionPoint"]), ("c2", ["ConnectionPoint"]),
    ("d", ["ConnectionPoint"]), ("L", ["Link"])],
   [("sf", "connects", "c1"), ("sf", "connects", "c2"),
    ("c1", "connects", "L"), ("c2", "connects", "L"), ("d", "connects", "L")]⟩

/-- A point-to-point link: `L1` attaches exactly the two connection points
`c1` and `d1`. -/
def p2pLinkScenario : ASM.PGraph :=
  ⟨[("c1", ["ConnectionPoint"]), ("d1", ["ConnectionPoint"]), ("L1", ["Link"])],
   [("c1", "connects", "L1"), ("d1", "connects", "L1")]⟩

/-- A store holding one properly imported node (marker label `GraphNode`,
structural class `NetworkNode`, `Class` property set accordingly). -/
def classStore : Neo4j.N4jStore :=
  ⟨[⟨0, ["GraphNode", "NetworkNode"],
     [("GraphID", "g1"), ("NodeID", "n1"), ("Class", "NetworkNode"), ("Name", "Worker1")]⟩],
   []⟩

/-- A store holding two properly imported nodes of graph `g1` joined by a
`has` relationship carrying one property. -/
def linkStore : Neo4j.N4jStore :=
  ⟨[⟨0, ["GraphNode", "NetworkNode"], [("GraphID", "g1"), ("NodeID", "a")]⟩,
    ⟨1, ["GraphNode", "Component"], [("GraphID", "g1"), ("NodeID", "b")]⟩],
   [⟨0, 1, "has", [("Name", "l1")]⟩]⟩

/-- The empty store: the addressed graph has zero nodes. -/
def emptyStore : Neo4j.N4jStore := ⟨[], []⟩

/-- A store mixing: a node carrying `GraphID = g1` but missing the
`GraphNode` marker label (the state a bulk import leaves behind when it
fails before the relabeling step), a properly labelled `g1` node, and a
properly labelled node of another graph `g2`. -/
def mixedStore : Neo4j.N4jStore :=
  ⟨[⟨0, ["NetworkNode"], [("GraphID", "g1"), ("NodeID", "p1")]⟩,
    ⟨1, ["GraphNode", "NetworkNode"], [("GraphID", "g1"), ("NodeID", "p2")]⟩,
    ⟨2, ["GraphNode", "NetworkNode"], [("GraphID", "g2"), ("NodeID", "q1")]⟩],
   []⟩

/-- A one-node store whose JSON-valued properties are all absent or the
literal "None". -/
def fineStore : Neo4j.N4jStore :=
  ⟨[⟨0, ["GraphNode", "NetworkNode"],
     [("GraphID", "g1"), ("NodeID", "n1"), ("Labels", "None")]⟩],
   []⟩

/-- A one-node store with a present-but-unparseable `Capacities` value. -/
def badJsonStore : Neo4j.N4jStore :=
  ⟨[⟨0, ["GraphNode", "NetworkNode"],
     [("GraphID", "g1"), ("NodeID", "n1"), ("Capacities", "xyz")]⟩],
   []⟩

/-! ## Helper lemmas -/

theorem mem_nodeIds_delete (g : ASM.PGraph) (x d : String) :
    x ∈ ASM.nodeIds (ASM.delete_node g d) ↔ x ∈ ASM.nodeIds g ∧ x ≠ d := by
  simp only [ASM.nodeIds, ASM.delete_node, List.mem_map, List.mem_filter, bne_iff_ne, ne_eq]
  constructor
  · rintro ⟨p, ⟨hp, hne⟩, rfl⟩
    exact ⟨⟨p, hp, rfl⟩, hne⟩
  · rintro ⟨⟨p, hp, rfl⟩, hne⟩
    exact ⟨p, ⟨hp, hne⟩, rfl⟩

theorem mem_nodeIds_foldl_delete (ds : List String) (g : ASM.PGraph) (x : String) :
    x ∈ ASM.nodeIds (ds.foldl ASM.delete_node g) ↔ x ∈ ASM.nodeIds g ∧ x ∉ ds := by
  induction ds generalizing g with
  | nil => simp
  | cons d ds ih =>
    rw [List.foldl_cons, ih, mem_nodeIds_delete]
    simp only [List.mem_cons]
    tauto

/-! ## Claims -/

/-- C3: removing a `SwitchFabric` whose two `ConnectionPoint` children are
each the sole endpoint of a `Link` to a single other connection point
deletes the switch fabric, both connection points, and both links (only the
far-side connection points `d1`, `d2` remain); and removing a
`ConnectionPoint` that has a sibling connection point still attached to the
same `Link` deletes only that connection point, leaving the `Link` node and
the sibling intact. -/
theorem C3_cascading_delete :
    ASM.remove_sf_with_cps_and_links sfScenario "sf" =
      .ok ⟨[("d1", ["ConnectionPoint"]), ("d2", ["ConnectionPoint"])], []⟩ ∧
    ASM.remove_cp_and_links siblingScenario "c1" =
      ⟨[("sf", ["SwitchFabric"]), ("c2", ["ConnectionPoint"]),
        ("d", ["ConnectionPoint"]), ("L", ["Link"])],
       [("sf", "connects", "c2"), ("c2", "connects", "L"), ("d", "connects", "L")]⟩ := by
  decide

/-- C4, counterexample: in `p2pLinkScenario` the link `L1` touches the
connection point `c1` being removed, and after excluding `c1` exactly one
other connection point (`d1`, i.e. not fewer than one) remains attached to
it — yet `remove_cp_and_links` deletes `L1`.  This refutes the claim that a
link is deleted only if fewer than one other connection point would remain
attached. -/
theorem C4_counterexample :
    ("L1" ∈ ASM.nodeIds p2pLinkScenario ∧
      "L1" ∉ ASM.nodeIds (ASM.remove_cp_and_links p2pLinkScenario "c1")) ∧
    ((ASM.get_first_neighbor p2pLinkScenario "L1" ASM.REL_CONNECTS
        ASM.CLASS_ConnectionPoint).filter (fun y => y != "c1")).length = 1 := by
  decide

/-- C4, amended: a node `x` of the graph is removed by
`remove_cp_and_links g n` exactly when (i) `x` is the removed node `n`
itself, or (ii) `x` is a parent `ConnectionPoint` (a `connects`-neighbour
of `n` labelled `ConnectionPoint`) whose own connected `ConnectionPoint`
count is exactly one — i.e. the node being removed was its only connected
child —, or (iii) `x` is a `Link` touching (via `connects`) an interface
slated for deletion and the number of connection points attached to `x` is
exactly two — i.e. exactly one other connection point besides the
interface being removed remains attached, not fewer than one. -/
theorem C4_amended (g : ASM.PGraph) (n x : String) (hx : x ∈ ASM.nodeIds g) :
    x ∉ ASM.nodeIds (ASM.remove_cp_and_links g n) ↔
      x = n ∨
      (x ∈ ASM.get_first_neighbor g n ASM.REL_CONNECTS ASM.CLASS_ConnectionPoint ∧
        (ASM.get_first_neighbor g x ASM.REL_CONNECTS ASM.CLASS_ConnectionPoint).length = 1) ∨
      (∃ i, (i = n ∨
          (i ∈ ASM.get_first_neighbor g n ASM.REL_CONNECTS ASM.CLASS_ConnectionPoint ∧
            (ASM.get_first_neighbor g i ASM.REL_CONNECTS ASM.CLASS_ConnectionPoint).length = 1)) ∧
        x ∈ ASM.get_first_neighbor g i ASM.REL_CONNECTS ASM.CLASS_Link ∧
        (ASM.get_first_neighbor g x ASM.REL_CONNECTS ASM.CLASS_ConnectionPoint).length = 2) := by
  unfold ASM.remove_cp_and_links
  rw [mem_nodeIds_foldl_delete]
  simp only [hx, true_and, not_and, not_not, List.mem_append, List.mem_cons,
    List.mem_filter, List.mem_flatMap, beq_iff_eq]
  aesop

/-- C4, witness for the amended theorem: applying it in `p2pLinkScenario`
shows `L1` is removed along with `c1`. -/
theorem C4_witness :
    "L1" ∉ ASM.nodeIds (ASM.remove_cp_and_links p2pLinkScenario "c1") :=
  (C4_amended p2pLinkScenario "c1" "L1" (by decide)).mpr
    (Or.inr (Or.inr ⟨"c1", Or.inl rfl, by decide, by decide⟩))

/-- C1: the claim says updating the structural `Class` key must fail with
`ImmutablePropertyError` and leave the node's properties unchanged.  The
Neo4j backend's `update_node_property` / `update_node_properties` perform
no such check: both calls succeed and overwrite the `Class` property (with
whatever else arrives in the same call), contradicting the spec and the
repository's own store-contract test, which asserts the rejection. -/
theorem C1_class_update_not_rejected :
    Neo4j.update_node_property classStore "g1" "n1" "Class" "NewNetworkNode" =
      .ok ⟨[⟨0, ["GraphNode", "NetworkNode"],
        [("GraphID", "g1"), ("NodeID", "n1"),
         ("Class", "NewNetworkNode"), ("Name", "Worker1")]⟩], []⟩ ∧
    Neo4j.update_node_properties classStore "g1" "n1"
        [("Class", "NewClass"), ("Name", "Worker2")] =
      .ok ⟨[⟨0, ["GraphNode", "NetworkNode"],
        [("GraphID", "g1"), ("NodeID", "n1"),
         ("Class", "NewClass"), ("Name", "Worker2")]⟩], []⟩ := by
  decide

/-- C6: on a store holding two properly imported nodes of graph `g1` joined
by a `has` relationship, `get_link_properties` raises "Unable to find link"
— its query scopes both endpoints by the misspelled property key `GraphId`,
which no imported node carries — although the very same lookup keyed by
`GraphID` (the spec's behaviour) finds the link and returns its property
map.  Moreover `update_link_property` always raises, for any store and
arguments: its `SET` clause writes to the variable `s`, which its `MATCH`
clause (binding only `a`, `r`, `b`) never defines, so Neo4j rejects the
statement outright. -/
theorem C6_link_operations_always_fail :
    Neo4j.get_link_properties linkStore "g1" "a" "b" "has" =
      .error (.queryErr (some "a") "Unable to find link") ∧
    Neo4j.get_link_properties_spec linkStore "g1" "a" "b" "has" = .ok [("Name", "l1")] ∧
    Neo4j.updateLinkBoundVars.contains Neo4j.updateLinkSetTargetVar = false ∧
    ∀ (st : Neo4j.N4jStore) (gid na nb kind pname pval : String),
      Neo4j.update_link_property st gid na nb kind pname pval =
        .error (.cypherErr "Variable s not defined") :=
  ⟨by decide, by decide, by decide, fun _ _ _ _ _ _ _ => rfl⟩

/-- C8: `delete_graph` removes exactly the nodes carrying both the
`GraphNode` marker label and the matching `GraphID` property.  A node with
the graph's `GraphID` but without the `GraphNode` label (the state of nodes
after a bulk import that failed before the relabeling step) survives, and
every node of a different graph id survives. -/
theorem C8_delete_graph_frame (st : Neo4j.N4jStore) (gid : String) :
    (∀ n : Neo4j.N4jNode, n ∈ (Neo4j.delete_graph st gid).nodes ↔
      n ∈ st.nodes ∧
        ¬(n.labels.contains "GraphNode" = true ∧ n.props.lookup "GraphID" = some gid)) ∧
    (∀ n ∈ st.nodes, n.props.lookup "GraphID" = some gid →
      n.labels.contains "GraphNode" = false →
      n ∈ (Neo4j.delete_graph st gid).nodes) ∧
    (∀ n ∈ st.nodes, n.props.lookup "GraphID" ≠ some gid →
      n ∈ (Neo4j.delete_graph st gid).nodes) := by
  have hm : ∀ n : Neo4j.N4jNode, Neo4j.deleteGraphMatches gid n = false ↔
      ¬(n.labels.contains "GraphNode" = true ∧ n.props.lookup "GraphID" = some gid) := by
    intro n
    rw [Bool.eq_false_iff]
    simp only [Ne, Neo4j.deleteGraphMatches, Bool.and_eq_true, beq_iff_eq]
  have key : ∀ n : Neo4j.N4jNode, n ∈ (Neo4j.delete_graph st gid).nodes ↔
      n ∈ st.nodes ∧ Neo4j.deleteGraphMatches gid n = false := by
    intro n
    simp only [Neo4j.delete_graph, List.mem_filter, Bool.not_eq_true']
  refine ⟨fun n => (key n).trans (and_congr_right fun _ => hm n), ?_, ?_⟩
  · intro n hn hgid hlbl
    exact (key n).mpr ⟨hn, (hm n).mpr fun hc => by rw [hlbl] at hc; exact absurd hc.1 (by simp)⟩
  · intro n hn hgid
    exact (key n).mpr ⟨hn, (hm n).mpr fun hc => hgid hc.2⟩

/-- C8, witness: in `mixedStore`, deleting graph `g1` keeps both the
unlabelled `g1` node and the node of graph `g2`. -/
theorem C8_witness :
    (⟨0, ["NetworkNode"], [("GraphID", "g1"), ("NodeID", "p1")]⟩ : Neo4j.N4jNode) ∈
      (Neo4j.delete_graph mixedStore "g1").nodes ∧
    (⟨2, ["GraphNode", "NetworkNode"], [("GraphID", "g2"), ("NodeID", "q1")]⟩ : Neo4j.N4jNode) ∈
      (Neo4j.delete_graph mixedStore "g1").nodes :=
  ⟨(C8_delete_graph_frame mixedStore "g1").2.1 _ (by decide) (by decide) (by decide),
   (C8_delete_graph_frame mixedStore "g1").2.2 _ (by decide) (by decide)⟩

theorem importRetryLoop_all_fail (ok : Nat → Bool) (gid : String) :
    ∀ (r i : Nat), (∀ j, j < r → ok (i + j) = false) →
      Neo4j.importRetryLoop ok gid r i = (Neo4j.failTriples gid r i, false) := by
  intro r
  induction r with
  | zero => intro i _; rfl
  | succ r ih =>
    intro i h
    have h0 : ok i = false := by simpa using h 0 (Nat.succ_pos r)
    have hrest : ∀ j, j < r → ok (i + 1 + j) = false := by
      intro j hj
      have := h (j + 1) (Nat.succ_lt_succ hj)
      simpa [Nat.add_assoc, Nat.add_comm 1 j] using this
    simp [Neo4j.importRetryLoop, Neo4j.failTriples, h0, ih (i + 1) hrest]

theorem importRetryLoop_first_success (ok : Nat → Bool) (gid : String) :
    ∀ (k r i : Nat), k < r → (∀ j, j < k → ok (i + j) = false) → ok (i + k) = true →
      Neo4j.importRetryLoop ok gid r i =
        (Neo4j.failTriples gid k i ++ [Neo4j.Ev.importAttempt (i + k)], true) := by
  intro k
  induction k with
  | zero =>
    intro r i hr _ hk
    obtain ⟨r', rfl⟩ := Nat.exists_eq_succ_of_ne_zero (Nat.pos_iff_ne_zero.mp hr)
    have h0 : ok i = true := by simpa using hk
    simp [Neo4j.importRetryLoop, Neo4j.failTriples, h0]
  | succ k ih =>
    intro r i hr hfail hk
    obtain ⟨r', rfl⟩ := Nat.exists_eq_succ_of_ne_zero
      (Nat.pos_iff_ne_zero.mp (Nat.lt_of_le_of_lt (Nat.zero_le _) hr))
    have h0 : ok i = false := by simpa using hfail 0 (Nat.succ_pos k)
    have hfail' : ∀ j, j < k → ok (i + 1 + j) = false := by
      intro j hj
      have := hfail (j + 1) (Nat.succ_lt_succ hj)
      simpa [Nat.add_assoc, Nat.add_comm 1 j] using this
    have hk' : ok (i + 1 + k) = true := by
      simpa [Nat.add_assoc, Nat.add_comm 1 k] using hk
    have hr' : k < r' := Nat.lt_of_succ_lt_succ hr
    simp [Neo4j.importRetryLoop, Neo4j.failTriples, h0, ih r' (i + 1) hr' hfail' hk',
      Nat.add_assoc, Nat.add_comm 1 k]

/-- C2: `import_graph_from_string` retries the bulk import up to the fixed
bound `APOC_RETRY_COUNT = 10`.  If every one of the 10 attempts fails, each
failure is followed by the `delete_graph` call scoped to the assigned graph
id and the fixed backoff sleep, and the run ends with the terminal
`ImportFailedError` ("Unable to load graph after multiple attempts"); if
attempt `k < 10` is the first to succeed, the run performs exactly the `k`
failure/delete/sleep triples followed by the successful attempt and returns
the assigned graph id. -/
theorem C2_import_retry (ok : Nat → Bool) (gid : String) :
    ((∀ i, i < Neo4j.APOC_RETRY_COUNT → ok i = false) →
      Neo4j.import_graph_from_string ok gid =
        (Neo4j.failTriples gid Neo4j.APOC_RETRY_COUNT 0 ++
          [Neo4j.Ev.unlinkStagedFile, Neo4j.Ev.raiseImportFailed],
         .error (.importErr none "Unable to load graph after multiple attempts"))) ∧
    (∀ k, k < Neo4j.APOC_RETRY_COUNT → (∀ j, j < k → ok j = false) → ok k = true →
      Neo4j.import_graph_from_string ok gid =
        (Neo4j.failTriples gid k 0 ++
          [Neo4j.Ev.importAttempt k, Neo4j.Ev.unlinkStagedFile,
           Neo4j.Ev.returnAssignedId gid],
         .ok gid)) := by
  constructor
  · intro h
    have := importRetryLoop_all_fail ok gid Neo4j.APOC_RETRY_COUNT 0
      (fun j hj => by simpa using h j hj)
    simp [Neo4j.import_graph_from_string, this]
  · intro k hk hfail hsucc
    have := importRetryLoop_first_success ok gid k Neo4j.APOC_RETRY_COUNT 0 hk
      (fun j hj => by simpa using hfail j hj) (by simpa using hsucc)
    simp [Neo4j.import_graph_from_string, this]

/-- C2, witness: with a loader that always fails, all ten attempts run and
the terminal error is raised; with a loader that first succeeds on attempt
3, three failure/delete/sleep triples precede the successful attempt and
the assigned id is returned. -/
theorem C2_witness :
    Neo4j.import_graph_from_string (fun _ => false) "gid-a" =
      (Neo4j.failTriples "gid-a" Neo4j.APOC_RETRY_COUNT 0 ++
        [Neo4j.Ev.unlinkStagedFile, Neo4j.Ev.raiseImportFailed],
       .error (.importErr none "Unable to load graph after multiple attempts")) ∧
    Neo4j.import_graph_from_string (fun i => decide (3 ≤ i)) "gid-b" =
      (Neo4j.failTriples "gid-b" 3 0 ++
        [Neo4j.Ev.importAttempt 3, Neo4j.Ev.unlinkStagedFile,
         Neo4j.Ev.returnAssignedId "gid-b"],
       .ok "gid-b") :=
  ⟨(C2_import_retry (fun _ => false) "gid-a").1 (fun _ _ => rfl),
   (C2_import_retry (fun i => decide (3 ≤ i)) "gid-b").2 3 (by decide) (by decide) (by decide)⟩

/-- C5, counterexample: in `import_graph_from_string_direct`, a failure of
the bulk-loader call raises before the `os.unlink` line is reached, so the
staged import file is not removed — it leaks. -/
theorem C5_counterexample :
    Neo4j.Ev.unlinkStagedFile ∉ (Neo4j.import_graph_from_string_direct false).1 := by
  decide

/-- C5, amended: the transformed import path (`import_graph_from_string`)
removes the staged file on every exit — success and exhausted retries alike
— but the two direct import paths remove it only when the loader call
succeeds; a loader failure raises first and leaks the staged file. -/
theorem C5_staged_file_cleanup :
    (∀ (ok : Nat → Bool) (gid : String),
      Neo4j.Ev.unlinkStagedFile ∈ (Neo4j.import_graph_from_string ok gid).1) ∧
    (∀ b, Neo4j.Ev.unlinkStagedFile ∈ (Neo4j.import_graph_from_string_direct b).1 ↔ b = true) ∧
    (∀ b, Neo4j.Ev.unlinkStagedFile ∈ (Neo4j.import_graph_from_file_direct b).1 ↔ b = true) := by
  refine ⟨fun ok gid => ?_, fun b => by cases b <;> decide, fun b => by cases b <;> decide⟩
  by_cases h : (Neo4j.importRetryLoop ok gid Neo4j.APOC_RETRY_COUNT 0).2 <;>
    simp [Neo4j.import_graph_from_string, h]

/-- C10: whenever the direct import paths succeed they return Python's
`None` (the functions end without a `return` statement), never a graph id,
despite the declared `str` return type. -/
theorem C10_direct_import_returns_none :
    (∀ (b : Bool) (r : Option String),
      (Neo4j.import_graph_from_string_direct b).2 = .ok r → r = none) ∧
    (∀ (b : Bool) (r : Option String),
      (Neo4j.import_graph_from_file_direct b).2 = .ok r → r = none) := by
  constructor <;> intro b r h <;> cases b <;>
    simp_all [Neo4j.import_graph_from_string_direct, Neo4j.import_graph_from_file_direct]

/-- C10, witness: the successful run of the string-direct path carries
`none`. -/
theorem C10_witness :
    (Neo4j.import_graph_from_string_direct true).2 = .ok none ∧
      (none : Option String) = none :=
  ⟨rfl, C10_direct_import_returns_none.1 true none rfl⟩

theorem validateNodeProps_get_err (jsonOk : String → Bool) (st : Neo4j.N4jStore)
    (gid nid : String) (e : PGErr)
    (h : Neo4j.get_node_properties st gid nid = .error e) (p : String) (ps : List String) :
    Neo4j.validateNodeProps jsonOk st gid nid (p :: ps) = .error e := by
  unfold Neo4j.validateNodeProps Neo4j.validate_json_property
  rw [h]

theorem validateNodeProps_ok_of_props (jsonOk : String → Bool) (st : Neo4j.N4jStore)
    (gid nid : String) (props : List (String × String))
    (h : Neo4j.get_node_properties st gid nid = .ok props) :
    ∀ ps, Neo4j.validateNodeProps jsonOk st gid nid ps = .ok () ↔
      ps.all (Neo4j.propFine jsonOk props) = true := by
  intro ps
  induction ps with
  | nil => simp [Neo4j.validateNodeProps]
  | cons p ps ih =>
    rw [List.all_cons]
    unfold Neo4j.validateNodeProps Neo4j.validate_json_property
    rw [h]
    cases hl : props.lookup p with
    | none => simp [Neo4j.propFine, hl, ih]
    | some v =>
      by_cases hv : v = "None"
      · simp [Neo4j.propFine, hl, hv, ih]
      · by_cases hj : jsonOk v = true
        · simp [Neo4j.propFine, hl, hv, hj, ih]
        · simp [Neo4j.propFine, hl, hv, hj, ih]

theorem validateNodeProps_error (jsonOk : String → Bool) (st : Neo4j.N4jStore)
    (gid nid : String) (props : List (String × String))
    (h : Neo4j.get_node_properties st gid nid = .ok props) :
    ∀ ps e, Neo4j.validateNodeProps jsonOk st gid nid ps = .error e →
      ∃ p ∈ ps, ∃ v, props.lookup p = some v ∧ v ≠ "None" ∧ jsonOk v = false ∧
        e = .importErr (some nid) (Neo4j.parseMsg p v) := by
  intro ps
  induction ps with
  | nil => intro e he; simp [Neo4j.validateNodeProps] at he
  | cons p ps ih =>
    intro e he
    unfold Neo4j.validateNodeProps Neo4j.validate_json_property at he
    rw [h] at he
    simp only [] at he
    cases hl : props.lookup p with
    | none =>
      rw [hl] at he
      obtain ⟨q, hq, w, rest⟩ := ih e he
      exact ⟨q, List.mem_cons_of_mem _ hq, w, rest⟩
    | some v =>
      rw [hl] at he
      simp only [] at he
      by_cases hv : v = "None"
      · subst hv
        obtain ⟨q, hq, w, rest⟩ := ih e he
        exact ⟨q, List.mem_cons_of_mem _ hq, w, rest⟩
      · have hvb : (v != "None") = true := by simp [bne_iff_ne, hv]
        rw [hvb] at he
        by_cases hj : jsonOk v = true
        · rw [hj] at he
          obtain ⟨q, hq, w, rest⟩ := ih e he
          exact ⟨q, List.mem_cons_of_mem _ hq, w, rest⟩
        · have hjf : jsonOk v = false := Bool.eq_false_iff.mpr hj
          rw [hjf] at he
          have he2 : Except.error (ε := PGErr) (α := Unit)
              (PGErr.importErr (some nid) (Neo4j.parseMsg p v)) = Except.error e := he
          cases he2
          exact ⟨p, List.mem_cons_self .., v, hl, hv, hjf, rfl⟩

theorem validateNodes_ok_iff (jsonOk : String → Bool) (st : Neo4j.N4jStore) (gid : String) :
    ∀ ns, Neo4j.validateNodes jsonOk st gid ns = .ok () ↔
      ∀ nid ∈ ns,
        Neo4j.validateNodeProps jsonOk st gid nid Neo4j.JSON_PROPERTY_NAMES = .ok () := by
  intro ns
  induction ns with
  | nil => simp [Neo4j.validateNodes]
  | cons n ns ih =>
    unfold Neo4j.validateNodes
    cases hn : Neo4j.validateNodeProps jsonOk st gid n Neo4j.JSON_PROPERTY_NAMES with
    | error e =>
      simp only [List.mem_cons]
      constructor
      · intro he; exact absurd he (by simp)
      · intro hall; exact absurd (hall n (Or.inl rfl)) (by simp [hn])
    | ok u =>
      cases u
      rw [ih]
      simp only [List.mem_cons]
      constructor
      · intro hall nid hmem
        rcases hmem with rfl | hmem
        · exact hn
        · exact hall nid hmem
      · intro hall nid hmem
        exact hall nid (Or.inr hmem)

theorem validateNodes_error (jsonOk : String → Bool) (st : Neo4j.N4jStore) (gid : String) :
    ∀ ns e, Neo4j.validateNodes jsonOk st gid ns = .error e →
      ∃ nid ∈ ns,
        Neo4j.validateNodeProps jsonOk st gid nid Neo4j.JSON_PROPERTY_NAMES = .error e := by
  intro ns
  induction ns with
  | nil => intro e he; simp [Neo4j.validateNodes] at he
  | cons n ns ih =>
    intro e he
    unfold Neo4j.validateNodes at he
    cases hn : Neo4j.validateNodeProps jsonOk st gid n Neo4j.JSON_PROPERTY_NAMES with
    | error e' =>
      rw [hn] at he
      cases he
      exact ⟨n, List.mem_cons_self .., hn⟩
    | ok u =>
      cases u
      rw [hn] at he
      obtain ⟨nid, hmem, hrest⟩ := ih e he
      exact ⟨nid, List.mem_cons_of_mem _ hmem, hrest⟩

theorem validateNodeProps_full_iff (jsonOk : String → Bool) (st : Neo4j.N4jStore)
    (gid nid : String) :
    Neo4j.validateNodeProps jsonOk st gid nid Neo4j.JSON_PROPERTY_NAMES = .ok () ↔
      Neo4j.nodeFine jsonOk st gid nid = true := by
  cases h : Neo4j.get_node_properties st gid nid with
  | error e =>
    rw [show Neo4j.JSON_PROPERTY_NAMES =
        "Labels" :: ["Capacities", "LabelDelegations", "CapacityDelegations"] from rfl]
    rw [validateNodeProps_get_err jsonOk st gid nid e h]
    simp [Neo4j.nodeFine, h]
  | ok props =>
    rw [validateNodeProps_ok_of_props jsonOk st gid nid props h]
    simp [Neo4j.nodeFine, h]

/-- C7, counterexample: the empty graph vacuously satisfies "every node's
four JSON-valued properties are absent or parse", yet the JSON check does
not pass on it — it raises "Unable to list nodes of graph". -/
theorem C7_counterexample :
    (Neo4j.list_all_node_ids emptyStore "g1").all
        (fun nid => Neo4j.nodeFine (fun _ => true) emptyStore "g1" nid) = true ∧
    Neo4j.validate_all_json_properties (fun _ => true) emptyStore "g1" ≠ .ok () := by
  decide

/-- C7, amended: on a graph listing at least one node, the JSON check
passes exactly when every listed node resolves and each of its four
JSON-valued properties (`Labels`, `Capacities`, `LabelDelegations`,
`CapacityDelegations`) is absent, the literal "None", or accepted by the
JSON parser; and when every listed node resolves, any error the check
raises is the `ValidationError` naming the offending node and property
with its unparseable value.  (On a graph listing zero nodes the check
raises "Unable to list nodes of graph" instead — see the counterexample.) -/
theorem C7_json_validation (jsonOk : String → Bool) (st : Neo4j.N4jStore) (gid : String)
    (hne : Neo4j.list_all_node_ids st gid ≠ []) :
    (Neo4j.validate_all_json_properties jsonOk st gid = .ok () ↔
      ∀ nid ∈ Neo4j.list_all_node_ids st gid,
        Neo4j.nodeFine jsonOk st gid nid = true) ∧
    ((∀ nid ∈ Neo4j.list_all_node_ids st gid,
        (Neo4j.get_node_properties st gid nid).isOk = true) →
      ∀ e, Neo4j.validate_all_json_properties jsonOk st gid = .error e →
        ∃ nid ∈ Neo4j.list_all_node_ids st gid, ∃ p ∈ Neo4j.JSON_PROPERTY_NAMES,
          ∃ v props, Neo4j.get_node_properties st gid nid = .ok props ∧
            props.lookup p = some v ∧ v ≠ "None" ∧ jsonOk v = false ∧
            e = .importErr (some nid) (Neo4j.parseMsg p v)) := by
  have hred : Neo4j.validate_all_json_properties jsonOk st gid =
      Neo4j.validateNodes jsonOk st gid (Neo4j.list_all_node_ids st gid) := by
    unfold Neo4j.validate_all_json_properties
    simp [List.length_eq_zero, hne]
  constructor
  · rw [hred, validateNodes_ok_iff]
    constructor
    · intro hall nid hmem
      exact (validateNodeProps_full_iff jsonOk st gid nid).mp (hall nid hmem)
    · intro hall nid hmem
      exact (validateNodeProps_full_iff jsonOk st gid nid).mpr (hall nid hmem)
  · intro hres e he
    rw [hred] at he
    obtain ⟨nid, hmem, herr⟩ := validateNodes_error jsonOk st gid _ e he
    have hok := hres nid hmem
    cases hget : Neo4j.get_node_properties st gid nid with
    | error e' => rw [hget] at hok; exact absurd hok (by simp [Except.isOk, Except.toBool])
    | ok props =>
      obtain ⟨p, hp, v, hv⟩ := validateNodeProps_error jsonOk st gid nid props hget _ e herr
      exact ⟨nid, hmem, p, hp, v, props, hget, hv⟩

/-- C7, witness for the amended theorem: a one-node graph whose JSON
properties are all absent or "None" passes the JSON check. -/
theorem C7_witness :
    Neo4j.validate_all_json_properties (fun _ => true) fineStore "g1" = .ok () :=
  (C7_json_validation (fun _ => true) fineStore "g1" (by decide)).1.mpr (by decide)

theorem validate_graph_rules_ok (gid : String) :
    ∀ rs : List (Bool × String), (∀ r ∈ rs, r.1 = true) →
      Neo4j.validate_graph_rules gid rs = .ok () := by
  intro rs
  induction rs with
  | nil => intro _; rfl
  | cons r rs ih =>
    intro h
    obtain ⟨v, msg⟩ := r
    have h1 : v = true := h (v, msg) (List.mem_cons_self ..)
    unfold Neo4j.validate_graph_rules
    simp only [h1]
    exact ih (fun x hx => h x (List.mem_cons_of_mem _ hx))

/-- C9: on a graph with zero nodes, `validate_graph` never passes: when all
configured rules evaluate true the JSON-property stage raises
`PropertyGraphQueryException` with message "Unable to list nodes of graph"
even though no JSON property is malformed, and in every case the result is
not a success. -/
theorem C9_empty_graph_validation (rules : List (Bool × String)) (jsonOk : String → Bool)
    (st : Neo4j.N4jStore) (gid : String)
    (hempty : st.nodes.filter (fun n => n.props.lookup "GraphID" == some gid) = []) :
    ((∀ r ∈ rules, r.1 = true) →
      Neo4j.validate_graph rules jsonOk st gid =
        .error (.queryErr none "Unable to list nodes of graph")) ∧
    Neo4j.validate_graph rules jsonOk st gid ≠ .ok () := by
  have hlist : Neo4j.list_all_node_ids st gid = [] := by
    unfold Neo4j.list_all_node_ids
    rw [hempty]
    rfl
  have hjson : Neo4j.validate_all_json_properties jsonOk st gid =
      .error (.queryErr none "Unable to list nodes of graph") := by
    unfold Neo4j.validate_all_json_properties
    rw [hlist]
    rfl
  constructor
  · intro hr
    unfold Neo4j.validate_graph
    rw [validate_graph_rules_ok gid rules hr]
    exact hjson
  · intro hok
    unfold Neo4j.validate_graph at hok
    cases hrr : Neo4j.validate_graph_rules gid rules with
    | error e => rw [hrr] at hok; exact Except.noConfusion hok
    | ok u =>
      cases u
      rw [hrr, hjson] at hok
      exact Except.noConfusion hok

/-- C9, witness: the empty store with one passing rule. -/
theorem C9_witness :
    Neo4j.validate_graph [(true, "r1")] (fun _ => true) emptyStore "g1" =
      .error (.queryErr none "Unable to list nodes of graph") ∧
    Neo4j.validate_graph [(true, "r1")] (fun _ => true) emptyStore "g1" ≠ .ok () :=
  ⟨(C9_empty_graph_validation [(true, "r1")] (fun _ => true) emptyStore "g1" (by decide)).1
      (by decide),
   (C9_empty_graph_validation [(true, "r1")] (fun _ => true) emptyStore "g1" (by decide)).2⟩
